import Mathlib

/-!
Verification development for the ebook-tools repository (five Calibre
task wrappers under src/tasks). Each task translates structured
parameters into an ebook-convert command line, runs it as a child
process, and classifies failures. The Python sources are shallowly
embedded below: pure string/path manipulation becomes Lean functions on
String, the filesystem and the child process become an explicit
environment record, and raised ValueError exceptions become Except
errors. Every definition is translated line by line from the
corresponding Python function.
-/

set_option maxRecDepth 4000

/-! ## Python string/path primitives

Models of the Python builtins the tasks use: str.upper, str.lower,
str.strip, str.split, substring membership, str.startswith,
str.endswith, os.path.join, pathlib.Path.suffix / .stem / .name. -/

/-- Model of Python str.upper for the ASCII strings handled here:
uppercase each character. -/
def pyUpper (s : String) : String := ⟨s.data.map Char.toUpper⟩

/-- Model of Python str.lower for the ASCII strings handled here:
lowercase each character. -/
def pyLower (s : String) : String := ⟨s.data.map Char.toLower⟩

/-- Characters Python str.strip and str.split treat as whitespace. -/
def pyIsSpace (c : Char) : Bool :=
  c = ' ' || c = '\t' || c = '\n' || c = '\r' || c = '\x0b' || c = '\x0c'

/-- Model of Python str.strip with no arguments: drop whitespace from
both ends. -/
def pyStrip (s : String) : String :=
  ⟨((s.data.dropWhile pyIsSpace).reverse.dropWhile pyIsSpace).reverse⟩

/-- Helper for pySplitWs: accumulate the current word (reversed) while
scanning the character list. -/
def pySplitWsAux (acc : List Char) : List Char → List String
  | [] => if acc = [] then [] else [⟨acc.reverse⟩]
  | c :: rest =>
    if pyIsSpace c then
      if acc = [] then pySplitWsAux [] rest
      else ⟨acc.reverse⟩ :: pySplitWsAux [] rest
    else pySplitWsAux (c :: acc) rest

/-- Model of Python str.split with no arguments: split on runs of
whitespace, producing no empty tokens. -/
def pySplitWs (s : String) : List String := pySplitWsAux [] s.data

/-- Boolean substring search on character lists: does pat occur as a
contiguous run inside l? Models the Python `in` operator on str. -/
def strContainsAux (pat : List Char) : List Char → Bool
  | [] => pat.isPrefixOf []
  | c :: rest => pat.isPrefixOf (c :: rest) || strContainsAux pat rest

/-- Model of the Python expression `pat in s` on strings. -/
def pyContains (s pat : String) : Bool := strContainsAux pat.data s.data

/-- Model of Python str.startswith. -/
def pyStartsWith (s pre : String) : Bool := pre.data.isPrefixOf s.data

/-- Model of Python str.endswith. -/
def pyEndsWith (s suf : String) : Bool := suf.data.isSuffixOf s.data

/-- Model of posixpath os.path.join with two arguments: an absolute
second argument replaces the first, otherwise the parts are glued with
a single slash. -/
def pyOsPathJoin (a b : String) : String :=
  if pyStartsWith b "/" then b
  else if a = "" || pyEndsWith a "/" then a ++ b
  else a ++ "/" ++ b

/-- Helper for splitOnChar: accumulate the current piece (reversed)
while scanning the character list. -/
def splitOnCharAux (sep : Char) (acc : List Char) : List Char → List String
  | [] => [⟨acc.reverse⟩]
  | c :: rest =>
    if c = sep then ⟨acc.reverse⟩ :: splitOnCharAux sep [] rest
    else splitOnCharAux sep (c :: acc) rest

/-- Split a string at every occurrence of a separator character,
keeping empty pieces (the behaviour of Python str.split with a
one-character separator). -/
def splitOnChar (sep : Char) (s : String) : List String :=
  splitOnCharAux sep [] s.data

/-- Model of pathlib PurePosixPath.name: the final path component,
after dropping empty and single-dot components, or the empty string. -/
def pyPathName (p : String) : String :=
  match ((splitOnChar '/' p).filter (fun c => c ≠ "" && c ≠ ".")).reverse with
  | [] => ""
  | c :: _ => c

/-- Index of the last occurrence of a character, as Python str.rfind
restricted to single-character needles (none when absent). -/
def pyRfind (cs : List Char) (c : Char) : Option Nat :=
  match cs with
  | [] => none
  | x :: rest =>
    match pyRfind rest c with
    | some i => some (i + 1)
    | none => if x = c then some 0 else none

/-- Model of pathlib PurePosixPath.suffix: the final dot-extension of
the name, when the last dot is neither the first nor the last
character of the name; empty otherwise. -/
def pyPathSuffix (p : String) : String :=
  let name := (pyPathName p).data
  match pyRfind name '.' with
  | none => ""
  | some i => if 0 < i ∧ i < name.length - 1 then ⟨name.drop i⟩ else ""

/-- Model of pathlib PurePosixPath.stem: the name with the suffix (as
computed by pyPathSuffix) removed. -/
def pyPathStem (p : String) : String :=
  let name := (pyPathName p).data
  match pyRfind name '.' with
  | none => ⟨name⟩
  | some i => if 0 < i ∧ i < name.length - 1 then ⟨name.take i⟩ else ⟨name⟩

/-- Model of the Python idiom `x or d` applied to an optional string:
None and the empty string both fall back to the default. -/
def pyOrStr (x : Option String) (d : String) : String :=
  match x with
  | none => d
  | some s => if s = "" then d else s

/-- Model of Python f-string interpolation of a bool. -/
def pyStrBool (b : Bool) : String := if b then "True" else "False"

/-- Model of Python "sep".join(list). -/
def pyJoin (sep : String) : List String → String
  | [] => ""
  | [x] => x
  | x :: y :: rest => x ++ sep ++ pyJoin sep (y :: rest)

/-- Model of Python dict.get(k, default) for the string-keyed flag
tables, represented as association lists with distinct keys. -/
def dictGet (d : List (String × List String)) (k : String) (df : List String) :
    List String :=
  match d with
  | [] => df
  | kv :: rest => if kv.1 = k then kv.2 else dictGet rest k df

/-- Model of Python dict.get(k, default) for string-valued tables. -/
def dictGetStr (d : List (String × String)) (k : String) (df : String) : String :=
  match d with
  | [] => df
  | kv :: rest => if kv.1 = k then kv.2 else dictGetStr rest k df

/-- Model of the Python expression `s.replace(".", "")`: drop every
dot. -/
def dropDots (s : String) : String := ⟨s.data.filter (fun c => c ≠ '.')⟩

/-- Rendering of str(e) for subprocess.CalledProcessError: the command
list is shown with Python repr quoting (here written with escaped
single-quote characters). Only reached when captured stderr is empty. -/
def pyCalledProcessErrorStr (cmd : List String) (returncode : Nat) : String :=
  "Command \x27[" ++
    pyJoin ", " (cmd.map (fun s => "\x27" ++ s ++ "\x27")) ++
    "]\x27 returned non-zero exit status " ++ toString returncode ++ "."

/-! ## Execution environment

The filesystem and the child process are external to the Python code;
they are modelled as an explicit environment. fsBefore is the
existence check used before spawning, fsAfter the one used after the
process ran. run is subprocess.run on an argument vector: it either
completes with an exit status and captured streams, or raises some
other exception (modelled by its message). sizeMB and sizeBytes give
the size strings the log lines interpolate for existing files; their
numeric formatting lives in the OS layer, not in the translated code. -/

structure RunCompletion where
  success : Bool
  returncode : Nat
  stdout : String
  stderr : String

inductive RunOutcome where
  | completed (r : RunCompletion)
  | raised (msg : String)

structure Env where
  fsBefore : String → Bool
  run : List String → RunOutcome
  fsAfter : String → Bool
  sizeMB : String → String
  sizeBytes : String → Nat

/-- Result of one task invocation: the Python return value or the
message of the raised ValueError, together with the list of argument
vectors handed to subprocess.run (used to express that no child
process was spawned). -/
structure TaskResult (α : Type) where
  result : Except String α
  spawned : List (List String)

/-- Projection used by concrete evaluations: the raised error message,
when the invocation failed. -/
def resultErrorMsg {α : Type} (t : TaskResult α) : Option String :=
  match t.result with
  | .error m => some m
  | .ok _ => none

/-! ## Task azw3-to-epub (src/tasks/azw3-to-epub/__init__.py) -/

structure Azw3ToEpubInputs where
  input_azw3 : String
  output_path : Option String
  quality : Option String
  preserve_metadata : Option Bool
  fix_drm_protected : Option Bool
  clean_formatting : Option Bool

structure Azw3ToEpubOutputs where
  output_file : String
deriving DecidableEq

/-- Static quality table of the azw3-to-epub task (lines 63-74). -/
def azw3_to_epub_quality_settings : List (String × List String) :=
  [("low", ["--output-profile", "generic_eink"]),
   ("medium", ["--output-profile", "generic_eink", "--pretty-print"]),
   ("high", ["--output-profile", "generic_eink", "--pretty-print",
             "--linearize-tables"]),
   ("best", ["--output-profile", "generic_eink", "--pretty-print",
             "--linearize-tables", "--unsmarten-punctuation", "--asciiize"])]

/-- Quality resolver of the azw3-to-epub task:
quality_settings.get(quality, quality_settings["high"]) (line 75). -/
def azw3_to_epub_quality (q : String) : List String :=
  dictGet azw3_to_epub_quality_settings q
    (dictGet azw3_to_epub_quality_settings "high" [])

/-- Output path of the azw3-to-epub task (lines 48-52): an explicit
output_path, else session_dir joined with the source stem plus ".epub". -/
def azw3_to_epub_outputFile (p : Azw3ToEpubInputs) (session_dir : String) :
    String :=
  match p.output_path with
  | none => pyOsPathJoin session_dir (pyPathStem p.input_azw3 ++ ".epub")
  | some f => f

/-- Command line assembled by the azw3-to-epub task (lines 60-93), in
the order of the successive cmd.extend calls: base command, quality
flags, metadata flag, DRM flag, formatting-cleanup flags. -/
def azw3_to_epub_cmd (p : Azw3ToEpubInputs) (session_dir : String) :
    List String :=
  let quality := pyOrStr p.quality "high"
  let preserve_metadata := p.preserve_metadata.getD true
  let fix_drm_protected := p.fix_drm_protected.getD false
  let clean_formatting := p.clean_formatting.getD true
  ["ebook-convert", p.input_azw3, azw3_to_epub_outputFile p session_dir]
    ++ azw3_to_epub_quality quality
    ++ (if preserve_metadata then ["--preserve-cover-aspect-ratio"] else [])
    ++ (if fix_drm_protected then ["--ignore-drm-errors"] else [])
    ++ (if clean_formatting then
          ["--fix-indents", "--remove-paragraph-spacing",
           "--remove-paragraph-spacing-indent-size", "1.5",
           "--insert-blank-line", "--html-unwrap-factor", "0.4"]
        else [])

/-- The DRM advisory note appended by the azw3-to-epub and universal
tasks. -/
def drmNote : String :=
  "\nNote: This file may be DRM-protected. DRM-protected files cannot be converted."

/-- Entry point of the azw3-to-epub task (function main). Control flow
follows the Python source: the existence check precedes the spawn; a
zero exit with a missing destination raises inside the try block, so
the blanket `except Exception` re-wraps the message with the
"Unexpected error: " prefix; a non-zero exit builds the stderr message
and appends the DRM note when the uppercased message mentions DRM or
ENCRYPTION. -/
def azw3_to_epub_main (p : Azw3ToEpubInputs) (session_dir : String)
    (env : Env) : TaskResult Azw3ToEpubOutputs :=
  if env.fsBefore p.input_azw3 then
    let output_file := azw3_to_epub_outputFile p session_dir
    let cmd := azw3_to_epub_cmd p session_dir
    match env.run cmd with
    | .raised m => ⟨.error ("Unexpected error: " ++ m), [cmd]⟩
    | .completed r =>
      if r.success then
        if env.fsAfter output_file then ⟨.ok ⟨output_file⟩, [cmd]⟩
        else
          ⟨.error ("Unexpected error: " ++
            "Conversion failed: Output file was not created"), [cmd]⟩
      else
        let error_msg :=
          if r.stderr = "" then pyCalledProcessErrorStr cmd r.returncode
          else "Conversion failed: " ++ r.stderr
        let error_msg :=
          if pyContains (pyUpper error_msg) "DRM" ||
             pyContains (pyUpper error_msg) "ENCRYPTION" then
            error_msg ++ drmNote
          else error_msg
        ⟨.error error_msg, [cmd]⟩
  else
    ⟨.error ("Input AZW3 file does not exist: " ++ p.input_azw3), []⟩

/-! ## Task epub-to-mobi (src/tasks/epub-to-mobi/__init__.py) -/

structure EpubToMobiInputs where
  input_epub : String
  output_path : String
  quality : String
  preserve_metadata : Bool

/-- Return value shape shared by the tasks that return an output path
plus a conversion log. -/
structure LogOutputs where
  output_file : String
  conversion_log : String
deriving DecidableEq

/-- Static quality table of the epub-to-mobi task (lines 48-53). -/
def epub_to_mobi_quality_settings : List (String × List String) :=
  [("low", ["--output-profile", "kindle"]),
   ("medium", ["--output-profile", "kindle", "--heuristics"]),
   ("high", ["--output-profile", "kindle", "--heuristics",
             "--enable-heuristics"]),
   ("best", ["--output-profile", "kindle", "--heuristics",
             "--enable-heuristics", "--smarten-punctuation"])]

/-- Quality resolver of the epub-to-mobi task:
quality_settings.get(quality, quality_settings["medium"]) (line 54). -/
def epub_to_mobi_quality (q : String) : List String :=
  dictGet epub_to_mobi_quality_settings q
    (dictGet epub_to_mobi_quality_settings "medium" [])

/-- Command line assembled by the epub-to-mobi task (lines 45-58). -/
def epub_to_mobi_cmd (p : EpubToMobiInputs) : List String :=
  ["ebook-convert", p.input_epub, p.output_path]
    ++ epub_to_mobi_quality p.quality
    ++ (if p.preserve_metadata then ["--preserve-cover-aspect-ratio"] else [])

/-- Entry point of the epub-to-mobi task (function main). Its except
blocks append the error text to the accumulated log and raise the
joined log; there is no DRM annotation in this task. -/
def epub_to_mobi_main (p : EpubToMobiInputs) (env : Env) :
    TaskResult LogOutputs :=
  if env.fsBefore p.input_epub then
    let cmd := epub_to_mobi_cmd p
    let logs := ["Converting " ++ p.input_epub ++ " to " ++ p.output_path,
                 "Quality setting: " ++ p.quality,
                 "Preserve metadata: " ++ pyStrBool p.preserve_metadata]
    match env.run cmd with
    | .raised m =>
      ⟨.error (pyJoin "\n" (logs ++ ["Unexpected error: " ++ m])), [cmd]⟩
    | .completed r =>
      if r.success then
        let logs := logs ++ ["Conversion completed successfully"]
        let logs :=
          if r.stdout = "" then logs
          else logs ++ ["Calibre output: " ++ r.stdout]
        if env.fsAfter p.output_path then
          let logs := logs ++
            ["Output file size: " ++ toString (env.sizeBytes p.output_path) ++
             " bytes"]
          ⟨.ok ⟨p.output_path, pyJoin "\n" logs⟩, [cmd]⟩
        else
          ⟨.error (pyJoin "\n" (logs ++
            ["Unexpected error: " ++
             "Conversion failed: Output file was not created"])), [cmd]⟩
      else
        let error_msg :=
          if r.stderr = "" then pyCalledProcessErrorStr cmd r.returncode
          else "Conversion failed: " ++ r.stderr
        ⟨.error (pyJoin "\n" (logs ++ ["Error: " ++ error_msg])), [cmd]⟩
  else
    ⟨.error ("Input EPUB file does not exist: " ++ p.input_epub), []⟩

/-! ## Task mobi-to-epub (src/tasks/mobi-to-epub/__init__.py) -/

structure MobiToEpubInputs where
  input_mobi : String
  output_path : String
  quality : String
  preserve_metadata : Bool
  fix_formatting : Bool

/-- Static quality table of the mobi-to-epub task (lines 50-55). -/
def mobi_to_epub_quality_settings : List (String × List String) :=
  [("low", ["--output-profile", "generic_eink"]),
   ("medium", ["--output-profile", "generic_eink", "--pretty-print"]),
   ("high", ["--output-profile", "generic_eink", "--pretty-print",
             "--linearize-tables"]),
   ("best", ["--output-profile", "generic_eink", "--pretty-print",
             "--linearize-tables", "--unsmarten-punctuation"])]

/-- Quality resolver of the mobi-to-epub task:
quality_settings.get(quality, quality_settings["medium"]) (line 56). -/
def mobi_to_epub_quality (q : String) : List String :=
  dictGet mobi_to_epub_quality_settings q
    (dictGet mobi_to_epub_quality_settings "medium" [])

/-- Command line assembled by the mobi-to-epub task (lines 47-69):
base command, quality flags, metadata flag, formatting-fix flags. -/
def mobi_to_epub_cmd (p : MobiToEpubInputs) : List String :=
  ["ebook-convert", p.input_mobi, p.output_path]
    ++ mobi_to_epub_quality p.quality
    ++ (if p.preserve_metadata then ["--preserve-cover-aspect-ratio"] else [])
    ++ (if p.fix_formatting then
          ["--fix-indents", "--remove-paragraph-spacing",
           "--remove-paragraph-spacing-indent-size", "1.5",
           "--insert-blank-line"]
        else [])

/-- Entry point of the mobi-to-epub task (function main). -/
def mobi_to_epub_main (p : MobiToEpubInputs) (env : Env) :
    TaskResult LogOutputs :=
  if env.fsBefore p.input_mobi then
    let cmd := mobi_to_epub_cmd p
    let logs := ["Converting " ++ p.input_mobi ++ " to " ++ p.output_path,
                 "Quality setting: " ++ p.quality,
                 "Preserve metadata: " ++ pyStrBool p.preserve_metadata,
                 "Fix formatting: " ++ pyStrBool p.fix_formatting]
    match env.run cmd with
    | .raised m =>
      ⟨.error (pyJoin "\n" (logs ++ ["Unexpected error: " ++ m])), [cmd]⟩
    | .completed r =>
      if r.success then
        let logs := logs ++ ["Conversion completed successfully"]
        let logs :=
          if r.stdout = "" then logs
          else logs ++ ["Calibre output: " ++ r.stdout]
        if env.fsAfter p.output_path then
          let logs := logs ++
            ["Output file size: " ++ toString (env.sizeBytes p.output_path) ++
             " bytes"]
          ⟨.ok ⟨p.output_path, pyJoin "\n" logs⟩, [cmd]⟩
        else
          ⟨.error (pyJoin "\n" (logs ++
            ["Unexpected error: " ++
             "Conversion failed: Output file was not created"])), [cmd]⟩
      else
        let error_msg :=
          if r.stderr = "" then pyCalledProcessErrorStr cmd r.returncode
          else "Conversion failed: " ++ r.stderr
        ⟨.error (pyJoin "\n" (logs ++ ["Error: " ++ error_msg])), [cmd]⟩
  else
    ⟨.error ("Input MOBI file does not exist: " ++ p.input_mobi), []⟩

/-! ## Task epub-to-azw3 (src/tasks/epub-to-azw3/__init__.py) -/

structure EpubToAzw3Inputs where
  input_epub : String
  output_path : String
  quality : String
  preserve_metadata : Bool
  kindle_device : String

/-- Static device-profile table of the epub-to-azw3 task (lines 50-56). -/
def epub_to_azw3_device_profiles : List (String × String) :=
  [("kindle", "kindle"),
   ("kindle_dx", "kindle_dx"),
   ("kindle_fire", "kindle_fire"),
   ("kindle_paperwhite", "kindle_paperwhite"),
   ("kindle_oasis", "kindle_oasis")]

/-- Static quality table of the epub-to-azw3 task (lines 60-71). -/
def epub_to_azw3_quality_settings : List (String × List String) :=
  [("low", ["--mobi-file-type", "new"]),
   ("medium", ["--mobi-file-type", "new", "--mobi-toc"]),
   ("high", ["--mobi-file-type", "new", "--mobi-toc",
             "--prefer-metadata-cover"]),
   ("best", ["--mobi-file-type", "new", "--mobi-toc",
             "--prefer-metadata-cover", "--share-not-sync",
             "--personal-doc"])]

/-- Quality resolver of the epub-to-azw3 task:
quality_settings.get(quality, quality_settings["high"]) (line 72). -/
def epub_to_azw3_quality (q : String) : List String :=
  dictGet epub_to_azw3_quality_settings q
    (dictGet epub_to_azw3_quality_settings "high" [])

/-- Command line assembled by the epub-to-azw3 task (lines 47-82):
base command, output profile, quality flags, metadata flag, then the
always-on AZW3 optimization flags. -/
def epub_to_azw3_cmd (p : EpubToAzw3Inputs) : List String :=
  ["ebook-convert", p.input_epub, p.output_path]
    ++ ["--output-profile",
        dictGetStr epub_to_azw3_device_profiles p.kindle_device
          "kindle_paperwhite"]
    ++ epub_to_azw3_quality p.quality
    ++ (if p.preserve_metadata then ["--preserve-cover-aspect-ratio"] else [])
    ++ ["--enable-heuristics", "--mobi-keep-original-images"]

/-- Entry point of the epub-to-azw3 task (function main). -/
def epub_to_azw3_main (p : EpubToAzw3Inputs) (env : Env) :
    TaskResult LogOutputs :=
  if env.fsBefore p.input_epub then
    let cmd := epub_to_azw3_cmd p
    let logs := ["Converting " ++ p.input_epub ++ " to " ++ p.output_path,
                 "Quality setting: " ++ p.quality,
                 "Target device: " ++ p.kindle_device,
                 "Preserve metadata: " ++ pyStrBool p.preserve_metadata]
    match env.run cmd with
    | .raised m =>
      ⟨.error (pyJoin "\n" (logs ++ ["Unexpected error: " ++ m])), [cmd]⟩
    | .completed r =>
      if r.success then
        let logs := logs ++ ["Conversion completed successfully"]
        let logs :=
          if r.stdout = "" then logs
          else logs ++ ["Calibre output: " ++ r.stdout]
        if env.fsAfter p.output_path then
          let logs := logs ++
            ["Output file size: " ++ toString (env.sizeBytes p.output_path) ++
             " bytes"]
          ⟨.ok ⟨p.output_path, pyJoin "\n" logs⟩, [cmd]⟩
        else
          ⟨.error (pyJoin "\n" (logs ++
            ["Unexpected error: " ++
             "Conversion failed: Output file was not created"])), [cmd]⟩
      else
        let error_msg :=
          if r.stderr = "" then pyCalledProcessErrorStr cmd r.returncode
          else "Conversion failed: " ++ r.stderr
        ⟨.error (pyJoin "\n" (logs ++ ["Error: " ++ error_msg])), [cmd]⟩
  else
    ⟨.error ("Input EPUB file does not exist: " ++ p.input_epub), []⟩

/-! ## Task universal-ebook-converter
(src/tasks/universal-ebook-converter/__init__.py) -/

/-- Inputs of the universal task. The custom_options field uses two
Option layers: the outer none models an absent key (the code reads it
with params.get("custom_options", "")), the inner none models an
explicit Python None value. -/
structure UniversalInputs where
  input_file : String
  output_format : String
  output_path : String
  quality : String
  preserve_metadata : Bool
  target_device : String
  custom_options : Option (Option String)

/-- The value of the local variable custom_options after
params.get("custom_options", "") (line 57). -/
def universalCustomOptions (p : UniversalInputs) : Option String :=
  match p.custom_options with
  | none => some ""
  | some v => v

/-- Output-path normalization of the universal task (lines 72-74):
when the lowered path does not end in "." plus the output format, the
extension is appended only when Path(output_path).suffix is empty;
otherwise the path is kept. -/
def fixOutputPath (output_path output_format : String) : String :=
  if pyEndsWith (pyLower output_path) ("." ++ output_format) then output_path
  else if pyPathSuffix output_path = "" then
    output_path ++ "." ++ output_format
  else output_path

/-- Static device-profile table of the universal task (lines 80-87). -/
def universal_device_profiles : List (String × String) :=
  [("generic", "generic_eink"),
   ("kindle", "kindle"),
   ("kindle_paperwhite", "kindle_pw"),
   ("ipad", "ipad"),
   ("kobo", "kobo"),
   ("nook", "nook")]

/-- Static quality table of the universal task (lines 91-101). -/
def universal_quality_settings : List (String × List String) :=
  [("low", []),
   ("medium", ["--pretty-print"]),
   ("high", ["--pretty-print", "--linearize-tables"]),
   ("best", ["--pretty-print", "--linearize-tables", "--enable-heuristics",
             "--smarten-punctuation"])]

/-- Quality resolver of the universal task:
quality_settings.get(quality, quality_settings["high"]) (line 102). -/
def universal_quality (q : String) : List String :=
  dictGet universal_quality_settings q
    (dictGet universal_quality_settings "high" [])

/-- Format-specific flags of the universal task (lines 104-118): the
membership test output_format in ["mobi", "azw3"] and the following
elif chain. -/
def universal_format_flags (output_format : String) : List String :=
  if output_format = "mobi" || output_format = "azw3" then
    ["--mobi-file-type", "new", "--mobi-toc"]
      ++ (if output_format = "azw3" then ["--mobi-keep-original-images"]
          else [])
  else if output_format = "epub" then
    ["--remove-paragraph-spacing", "--insert-blank-line"]
  else if output_format = "pdf" then
    ["--paper-size", "a4"]
  else []

/-- Raw passthrough flags of the universal task (lines 124-127): when
custom_options is truthy and strips to a nonempty string, the stripped
text is whitespace-split into tokens; otherwise nothing is added. -/
def universal_extra_flags (custom_options : Option String) : List String :=
  match custom_options with
  | none => []
  | some s =>
    if s ≠ "" && pyStrip s ≠ "" then pySplitWs (pyStrip s) else []

/-- Command line assembled by the universal task (lines 76-127), in
the order of the successive cmd.extend calls: base command, output
profile, quality flags, format-specific flags, metadata flag, raw
passthrough flags. -/
def universal_cmd (p : UniversalInputs) : List String :=
  ["ebook-convert", p.input_file, fixOutputPath p.output_path p.output_format]
    ++ ["--output-profile",
        dictGetStr universal_device_profiles p.target_device "generic_eink"]
    ++ universal_quality p.quality
    ++ universal_format_flags p.output_format
    ++ (if p.preserve_metadata then ["--prefer-metadata-cover"] else [])
    ++ universal_extra_flags (universalCustomOptions p)

/-- Error annotation chain of the universal task (lines 180-186): an
if/elif/elif chain, so at most one of the three notes is appended, in
the priority order DRM/encryption, "not found", same source and
target format. -/
def universalAnnotate (error_msg input_format output_format : String) :
    String :=
  if pyContains (pyUpper error_msg) "DRM" ||
     pyContains (pyUpper error_msg) "ENCRYPTION" then
    error_msg ++ drmNote
  else if pyContains (pyLower error_msg) "not found" then
    error_msg ++ "\nNote: Make sure Calibre is properly installed."
  else if input_format = output_format then
    error_msg ++ "\nNote: Input and output formats are the same (" ++
      input_format ++ "). No conversion needed."
  else error_msg

/-- The source format inferred by the universal task (line 65):
Path(input_file).suffix.lower().replace(".", ""). -/
def universalInputFormat (input_file : String) : String :=
  dropDots (pyLower (pyPathSuffix input_file))

/-- Entry point of the universal task (function main). The returned
file_info block only repackages environment-provided file metadata
(sizes, mime type) and is not modelled; output_file and conversion_log
are. As in the other tasks, the missing-destination ValueError raised
inside the try block is re-wrapped by the blanket `except Exception`
handler. -/
def universal_main (p : UniversalInputs) (env : Env) :
    TaskResult LogOutputs :=
  let custom_options := universalCustomOptions p
  if env.fsBefore p.input_file then
    let input_format := universalInputFormat p.input_file
    let output_path := fixOutputPath p.output_path p.output_format
    let cmd := universal_cmd p
    let logs :=
      ["Converting " ++ p.input_file ++ " (" ++ pyUpper input_format ++
         ") to " ++ output_path ++ " (" ++ pyUpper p.output_format ++ ")",
       "Input file size: " ++ env.sizeMB p.input_file ++ " MB",
       "Quality setting: " ++ p.quality,
       "Target device: " ++ p.target_device,
       "Preserve metadata: " ++ pyStrBool p.preserve_metadata]
    let logs :=
      match custom_options with
      | none => logs
      | some s => if s = "" then logs else logs ++ ["Custom options: " ++ s]
    match env.run cmd with
    | .raised m =>
      ⟨.error (pyJoin "\n" (logs ++ ["Unexpected error: " ++ m])), [cmd]⟩
    | .completed r =>
      if r.success then
        let logs := logs ++ ["Conversion completed successfully"]
        let logs :=
          if r.stdout = "" then logs
          else logs ++ ["Calibre output: " ++ r.stdout]
        if env.fsAfter output_path then
          let logs := logs ++
            ["Output file size: " ++ env.sizeMB output_path ++ " MB"]
          ⟨.ok ⟨output_path, pyJoin "\n" logs⟩, [cmd]⟩
        else
          ⟨.error (pyJoin "\n" (logs ++
            ["Unexpected error: " ++
             "Conversion failed: Output file was not created"])), [cmd]⟩
      else
        let error_msg :=
          if r.stderr = "" then pyCalledProcessErrorStr cmd r.returncode
          else "Conversion failed: " ++ r.stderr
        let error_msg := universalAnnotate error_msg input_format p.output_format
        ⟨.error (pyJoin "\n" (logs ++ ["Error: " ++ error_msg])), [cmd]⟩
  else
    ⟨.error ("Input file does not exist: " ++ p.input_file), []⟩

/-! ## Lemmas about the string primitives -/

theorem nil_isPrefixOf_char (l : List Char) : List.isPrefixOf [] l = true := by
  cases l <;> rfl

theorem isPrefixOf_self_char (l : List Char) : l.isPrefixOf l = true := by
  induction l with
  | nil => rfl
  | cons c cs ih => simp [List.isPrefixOf, ih]

theorem isPrefixOf_append_char :
    ∀ (l m n : List Char), l.isPrefixOf m = true → l.isPrefixOf (m ++ n) = true
  | [], m, n, _ => nil_isPrefixOf_char (m ++ n)
  | a :: l, [], n, h => by simp [List.isPrefixOf] at h
  | a :: l, b :: m, n, h => by
    simp only [List.isPrefixOf, Bool.and_eq_true] at h
    simp only [List.cons_append, List.isPrefixOf, Bool.and_eq_true]
    exact ⟨h.1, isPrefixOf_append_char l m n h.2⟩

theorem strContainsAux_of_prefix {pat l : List Char}
    (h : pat.isPrefixOf l = true) : strContainsAux pat l = true := by
  cases l with
  | nil => exact h
  | cons c cs => simp [strContainsAux, h]

theorem strContainsAux_append_left (pat b : List Char)
    (h : strContainsAux pat b = true) :
    ∀ a : List Char, strContainsAux pat (a ++ b) = true
  | [] => h
  | c :: cs => by
    have ih := strContainsAux_append_left pat b h cs
    simp [strContainsAux, ih]

theorem strContainsAux_append_right (pat b : List Char) :
    ∀ a : List Char, strContainsAux pat a = true →
      strContainsAux pat (a ++ b) = true
  | [], h => by
    cases pat with
    | nil => exact strContainsAux_of_prefix (nil_isPrefixOf_char _)
    | cons c cs => simp [strContainsAux, List.isPrefixOf] at h
  | c :: cs, h => by
    simp only [strContainsAux, Bool.or_eq_true] at h
    rcases h with h | h
    · simp only [List.cons_append, strContainsAux, Bool.or_eq_true]
      exact Or.inl (isPrefixOf_append_char _ _ _ h)
    · simp only [List.cons_append, strContainsAux, Bool.or_eq_true]
      exact Or.inr (strContainsAux_append_right pat b cs h)

theorem strContainsAux_self (l : List Char) : strContainsAux l l = true :=
  strContainsAux_of_prefix (isPrefixOf_self_char l)

theorem string_data_append (a b : String) : (a ++ b).data = a.data ++ b.data :=
  rfl

theorem pyContains_append_left {b pat : String}
    (h : pyContains b pat = true) (a : String) :
    pyContains (a ++ b) pat = true := by
  show strContainsAux pat.data (a ++ b).data = true
  rw [string_data_append]
  exact strContainsAux_append_left _ _ h _

theorem pyContains_append_right {a pat : String}
    (h : pyContains a pat = true) (b : String) :
    pyContains (a ++ b) pat = true := by
  show strContainsAux pat.data (a ++ b).data = true
  rw [string_data_append]
  exact strContainsAux_append_right _ _ _ h

theorem pyContains_self (s : String) : pyContains s s = true :=
  strContainsAux_self s.data

theorem pyContains_suffix (a b : String) : pyContains (a ++ b) b = true :=
  pyContains_append_left (pyContains_self b) a

theorem pyUpper_append (a b : String) :
    pyUpper (a ++ b) = pyUpper a ++ pyUpper b := by
  show String.mk ((a.data ++ b.data).map Char.toUpper) = _
  rw [List.map_append]
  rfl

theorem pyContains_upper_append_left {b pat : String}
    (h : pyContains (pyUpper b) pat = true) (a : String) :
    pyContains (pyUpper (a ++ b)) pat = true := by
  rw [pyUpper_append]
  exact pyContains_append_left h _

theorem pyContains_pyJoin_last (sep x : String) {pat : String}
    (h : pyContains x pat = true) :
    ∀ l : List String, pyContains (pyJoin sep (l ++ [x])) pat = true
  | [] => h
  | a :: l => by
    have ih := pyContains_pyJoin_last sep x h l
    cases l with
    | nil =>
      show pyContains (a ++ sep ++ x) pat = true
      exact pyContains_append_left h (a ++ sep)
    | cons b l2 =>
      show pyContains (a ++ sep ++ pyJoin sep ((b :: l2) ++ [x])) pat = true
      exact pyContains_append_left ih (a ++ sep)

theorem string_eq_empty_of_data {s : String} (h : s.data = []) : s = "" := by
  cases s with
  | mk d =>
    cases h
    rfl

theorem ne_empty_of_pyContains_upper {s pat : String} (hp : pat ≠ "")
    (h : pyContains (pyUpper s) pat = true) : s ≠ "" := by
  intro hs
  subst hs
  cases hd : pat.data with
  | nil => exact hp (string_eq_empty_of_data hd)
  | cons c cs =>
    rw [pyContains, hd] at h
    simp [pyUpper, strContainsAux, List.isPrefixOf] at h

/-! ## Concrete environments used by witnesses and counterexamples -/

/-- Environment in which no path exists. -/
def envNoFiles : Env :=
  ⟨fun _ => false, fun _ => .completed ⟨true, 0, "", ""⟩, fun _ => true,
   fun _ => "0", fun _ => 0⟩

/-- Environment in which every path exists, the child process exits
zero and every conversion leaves its output in place. -/
def envAllOk : Env :=
  ⟨fun _ => true, fun _ => .completed ⟨true, 0, "", ""⟩, fun _ => true,
   fun _ => "1.0", fun _ => 7⟩

/-- Environment in which the source exists and the child process exits
zero, but no destination file appears afterward. -/
def envZeroExitNoOutput : Env :=
  ⟨fun _ => true, fun _ => .completed ⟨true, 0, "", ""⟩, fun _ => false,
   fun _ => "1.0", fun _ => 7⟩

/-- Environment in which the child process fails with stderr
"DRM Error". -/
def envDrmFail : Env :=
  ⟨fun _ => true, fun _ => .completed ⟨false, 1, "", "DRM Error"⟩,
   fun _ => true, fun _ => "1.0", fun _ => 7⟩

/-- Environment in which the child process fails with a stderr that
satisfies both the DRM condition and the "not found" condition of the
universal-task classifier. -/
def envDrmNotFound : Env :=
  ⟨fun _ => true, fun _ => .completed ⟨false, 1, "", "DRM plugin not found"⟩,
   fun _ => true, fun _ => "1.0", fun _ => 7⟩

/-! ## C1 -/

/-- C1: in the universal task, when the explicitly supplied
destination path does not already end (after lowering) in "." plus
the target format, the extension is appended exactly when the path
has no extension at all (its Path suffix is empty), and the path is
left unchanged when it already carries any extension. -/
theorem c1_explicit_destination_extension (p fmt : String)
    (h : pyEndsWith (pyLower p) ("." ++ fmt) = false) :
    (pyPathSuffix p = "" → fixOutputPath p fmt = p ++ "." ++ fmt) ∧
    (pyPathSuffix p ≠ "" → fixOutputPath p fmt = p) := by
  constructor
  · intro hs
    simp [fixOutputPath, h, hs]
  · intro hs
    simp [fixOutputPath, h, hs]

/-- C1 witness: "out" targeting "pdf" becomes "out.pdf"; "out.tmp"
targeting "pdf" is left unchanged. -/
theorem c1_explicit_destination_extension_witness :
    fixOutputPath "out" "pdf" = "out.pdf" ∧
    fixOutputPath "out.tmp" "pdf" = "out.tmp" := by
  constructor
  · rw [(c1_explicit_destination_extension "out" "pdf" (by decide)).1
      (by decide)]
    decide
  · exact (c1_explicit_destination_extension "out.tmp" "pdf" (by decide)).2
      (by decide)

/-! ## C2 -/

/-- C2: for each of the five tasks, when the source path does not
exist the invocation fails with the missing-input error, whose message
names the missing input file, and no child process is spawned (the
spawned list stays empty). -/
theorem c2_missing_input_no_spawn (env : Env) (sd : String)
    (p1 : Azw3ToEpubInputs) (p2 : EpubToMobiInputs) (p3 : MobiToEpubInputs)
    (p4 : EpubToAzw3Inputs) (p5 : UniversalInputs)
    (h1 : env.fsBefore p1.input_azw3 = false)
    (h2 : env.fsBefore p2.input_epub = false)
    (h3 : env.fsBefore p3.input_mobi = false)
    (h4 : env.fsBefore p4.input_epub = false)
    (h5 : env.fsBefore p5.input_file = false) :
    ((azw3_to_epub_main p1 sd env).spawned = [] ∧
      ∃ m, (azw3_to_epub_main p1 sd env).result = .error m ∧
        pyContains m p1.input_azw3 = true) ∧
    ((epub_to_mobi_main p2 env).spawned = [] ∧
      ∃ m, (epub_to_mobi_main p2 env).result = .error m ∧
        pyContains m p2.input_epub = true) ∧
    ((mobi_to_epub_main p3 env).spawned = [] ∧
      ∃ m, (mobi_to_epub_main p3 env).result = .error m ∧
        pyContains m p3.input_mobi = true) ∧
    ((epub_to_azw3_main p4 env).spawned = [] ∧
      ∃ m, (epub_to_azw3_main p4 env).result = .error m ∧
        pyContains m p4.input_epub = true) ∧
    ((universal_main p5 env).spawned = [] ∧
      ∃ m, (universal_main p5 env).result = .error m ∧
        pyContains m p5.input_file = true) := by
  refine ⟨⟨?_, ?_⟩, ⟨?_, ?_⟩, ⟨?_, ?_⟩, ⟨?_, ?_⟩, ⟨?_, ?_⟩⟩
  · simp [azw3_to_epub_main, h1]
  · refine ⟨"Input AZW3 file does not exist: " ++ p1.input_azw3, ?_,
      pyContains_suffix _ _⟩
    simp [azw3_to_epub_main, h1]
  · simp [epub_to_mobi_main, h2]
  · refine ⟨"Input EPUB file does not exist: " ++ p2.input_epub, ?_,
      pyContains_suffix _ _⟩
    simp [epub_to_mobi_main, h2]
  · simp [mobi_to_epub_main, h3]
  · refine ⟨"Input MOBI file does not exist: " ++ p3.input_mobi, ?_,
      pyContains_suffix _ _⟩
    simp [mobi_to_epub_main, h3]
  · simp [epub_to_azw3_main, h4]
  · refine ⟨"Input EPUB file does not exist: " ++ p4.input_epub, ?_,
      pyContains_suffix _ _⟩
    simp [epub_to_azw3_main, h4]
  · simp [universal_main, h5]
  · refine ⟨"Input file does not exist: " ++ p5.input_file, ?_,
      pyContains_suffix _ _⟩
    simp [universal_main, h5]

/-- C2 witness: in the environment with no files, each of the five
tasks spawns nothing. -/
theorem c2_missing_input_no_spawn_witness :
    (azw3_to_epub_main ⟨"a.azw3", none, none, none, none, none⟩ "/sess"
      envNoFiles).spawned = [] ∧
    (epub_to_mobi_main ⟨"b.epub", "b.mobi", "high", true⟩
      envNoFiles).spawned = [] ∧
    (mobi_to_epub_main ⟨"c.mobi", "c.epub", "low", false, true⟩
      envNoFiles).spawned = [] ∧
    (epub_to_azw3_main ⟨"d.epub", "d.azw3", "best", true, "kindle"⟩
      envNoFiles).spawned = [] ∧
    (universal_main ⟨"e.epub", "pdf", "e.pdf", "medium", false, "generic",
      none⟩ envNoFiles).spawned = [] := by
  have H := c2_missing_input_no_spawn envNoFiles "/sess"
    ⟨"a.azw3", none, none, none, none, none⟩
    ⟨"b.epub", "b.mobi", "high", true⟩
    ⟨"c.mobi", "c.epub", "low", false, true⟩
    ⟨"d.epub", "d.azw3", "best", true, "kindle"⟩
    ⟨"e.epub", "pdf", "e.pdf", "medium", false, "generic", none⟩
    rfl rfl rfl rfl rfl
  exact ⟨H.1.1, H.2.1.1, H.2.2.1.1, H.2.2.2.1.1, H.2.2.2.2.1⟩

/-! ## C3 -/

/-- C3 counterexample: with the source present, a zero exit status and
no destination file afterward, the azw3-to-epub task does raise, but
the raised message is the output-not-created text re-wrapped by the
blanket exception handler: it carries the "Unexpected error: " prefix
of the generic unexpected kind, refuting the claim that the failure is
not re-wrapped. -/
theorem c3_output_missing_counterexample :
    resultErrorMsg (azw3_to_epub_main ⟨"b.azw3", none, none, none, none, none⟩
        "/sess" envZeroExitNoOutput) =
      some "Unexpected error: Conversion failed: Output file was not created" ∧
    pyStartsWith "Unexpected error: Conversion failed: Output file was not created"
      "Unexpected error: " = true := by
  constructor
  · decide
  · decide

/-- C3 amended: in every one of the five tasks, when the process exits
zero and the destination file is absent afterward, the call raises
(rather than returning), and the surfaced message is the
conversion-failure text re-wrapped by the generic handler with the
"Unexpected error: " prefix. In the azw3-to-epub task the message is
exactly the re-wrapped text; in the four log-building tasks the
re-wrapped text is the final line of the joined log. -/
theorem c3_amended_output_missing_rewrapped :
    (∀ (env : Env) (sd : String) (p : Azw3ToEpubInputs) (r : RunCompletion),
      env.fsBefore p.input_azw3 = true →
      env.run (azw3_to_epub_cmd p sd) = .completed r →
      r.success = true →
      env.fsAfter (azw3_to_epub_outputFile p sd) = false →
      (azw3_to_epub_main p sd env).result =
        .error ("Unexpected error: " ++
          "Conversion failed: Output file was not created")) ∧
    (∀ (env : Env) (p : EpubToMobiInputs) (r : RunCompletion),
      env.fsBefore p.input_epub = true →
      env.run (epub_to_mobi_cmd p) = .completed r →
      r.success = true →
      env.fsAfter p.output_path = false →
      ∃ m, (epub_to_mobi_main p env).result = .error m ∧
        pyContains m ("Unexpected error: " ++
          "Conversion failed: Output file was not created") = true) ∧
    (∀ (env : Env) (p : MobiToEpubInputs) (r : RunCompletion),
      env.fsBefore p.input_mobi = true →
      env.run (mobi_to_epub_cmd p) = .completed r →
      r.success = true →
      env.fsAfter p.output_path = false →
      ∃ m, (mobi_to_epub_main p env).result = .error m ∧
        pyContains m ("Unexpected error: " ++
          "Conversion failed: Output file was not created") = true) ∧
    (∀ (env : Env) (p : EpubToAzw3Inputs) (r : RunCompletion),
      env.fsBefore p.input_epub = true →
      env.run (epub_to_azw3_cmd p) = .completed r →
      r.success = true →
      env.fsAfter p.output_path = false →
      ∃ m, (epub_to_azw3_main p env).result = .error m ∧
        pyContains m ("Unexpected error: " ++
          "Conversion failed: Output file was not created") = true) ∧
    (∀ (env : Env) (p : UniversalInputs) (r : RunCompletion),
      env.fsBefore p.input_file = true →
      env.run (universal_cmd p) = .completed r →
      r.success = true →
      env.fsAfter (fixOutputPath p.output_path p.output_format) = false →
      ∃ m, (universal_main p env).result = .error m ∧
        pyContains m ("Unexpected error: " ++
          "Conversion failed: Output file was not created") = true) := by
  refine ⟨?_, ?_, ?_, ?_, ?_⟩
  · intro env sd p r h1 h2 h3 h4
    simp [azw3_to_epub_main, h1, h2, h3, h4]
  · intro env p r h1 h2 h3 h4
    simp only [epub_to_mobi_main, h1, h2, h3, h4, if_true,
      Bool.false_eq_true, if_false]
    exact ⟨_, rfl, pyContains_pyJoin_last _ _ (pyContains_self _) _⟩
  · intro env p r h1 h2 h3 h4
    simp only [mobi_to_epub_main, h1, h2, h3, h4, if_true,
      Bool.false_eq_true, if_false]
    exact ⟨_, rfl, pyContains_pyJoin_last _ _ (pyContains_self _) _⟩
  · intro env p r h1 h2 h3 h4
    simp only [epub_to_azw3_main, h1, h2, h3, h4, if_true,
      Bool.false_eq_true, if_false]
    exact ⟨_, rfl, pyContains_pyJoin_last _ _ (pyContains_self _) _⟩
  · intro env p r h1 h2 h3 h4
    simp only [universal_main, h1, h2, h3, h4, if_true, Bool.false_eq_true,
      if_false]
    exact ⟨_, rfl, pyContains_pyJoin_last _ _ (pyContains_self _) _⟩

/-- C3 amended witness: concrete zero-exit-no-output runs of all five
tasks. -/
theorem c3_amended_output_missing_rewrapped_witness :
    (azw3_to_epub_main ⟨"c.azw3", none, none, none, none, none⟩ "/sess"
        envZeroExitNoOutput).result =
      .error ("Unexpected error: " ++
        "Conversion failed: Output file was not created") ∧
    (∃ m, (epub_to_mobi_main ⟨"c.epub", "c.mobi", "high", true⟩
        envZeroExitNoOutput).result = .error m ∧
      pyContains m ("Unexpected error: " ++
        "Conversion failed: Output file was not created") = true) ∧
    (∃ m, (mobi_to_epub_main ⟨"c.mobi", "c.epub", "low", false, true⟩
        envZeroExitNoOutput).result = .error m ∧
      pyContains m ("Unexpected error: " ++
        "Conversion failed: Output file was not created") = true) ∧
    (∃ m, (epub_to_azw3_main ⟨"d.epub", "d.azw3", "best", true, "kindle"⟩
        envZeroExitNoOutput).result = .error m ∧
      pyContains m ("Unexpected error: " ++
        "Conversion failed: Output file was not created") = true) ∧
    ∃ m, (universal_main ⟨"in.epub", "pdf", "out", "high", true, "generic",
        none⟩ envZeroExitNoOutput).result = .error m ∧
      pyContains m ("Unexpected error: " ++
        "Conversion failed: Output file was not created") = true :=
  ⟨c3_amended_output_missing_rewrapped.1 envZeroExitNoOutput "/sess"
    ⟨"c.azw3", none, none, none, none, none⟩ ⟨true, 0, "", ""⟩ rfl rfl rfl rfl,
   c3_amended_output_missing_rewrapped.2.1 envZeroExitNoOutput
    ⟨"c.epub", "c.mobi", "high", true⟩ ⟨true, 0, "", ""⟩ rfl rfl rfl rfl,
   c3_amended_output_missing_rewrapped.2.2.1 envZeroExitNoOutput
    ⟨"c.mobi", "c.epub", "low", false, true⟩ ⟨true, 0, "", ""⟩ rfl rfl rfl rfl,
   c3_amended_output_missing_rewrapped.2.2.2.1 envZeroExitNoOutput
    ⟨"d.epub", "d.azw3", "best", true, "kindle"⟩ ⟨true, 0, "", ""⟩
    rfl rfl rfl rfl,
   c3_amended_output_missing_rewrapped.2.2.2.2 envZeroExitNoOutput
    ⟨"in.epub", "pdf", "out", "high", true, "generic", none⟩
    ⟨true, 0, "", ""⟩ rfl rfl rfl rfl⟩

theorem pyContains_pyJoin_mem (sep : String) {x pat : String}
    (h : pyContains x pat = true) :
    ∀ l : List String, x ∈ l → pyContains (pyJoin sep l) pat = true := by
  intro l
  induction l with
  | nil => intro hx; exact absurd hx (List.not_mem_nil x)
  | cons a l ih =>
    intro hx
    cases l with
    | nil =>
      have hxa : x = a := by simpa using hx
      subst hxa
      exact h
    | cons b l2 =>
      rcases List.mem_cons.mp hx with rfl | hx2
      · exact pyContains_append_right (pyContains_append_right h sep) _
      · exact pyContains_append_left (ih hx2) _

/-! ## C4 -/

/-- C4 counterexample: the epub-to-mobi task, cited by the claim, has
no DRM annotation at all. With a non-zero exit and stderr "DRM Error"
the surfaced message carries the raw stderr but not the DRM advisory
note, refuting the claim for this task. -/
theorem c4_drm_note_counterexample :
    resultErrorMsg (epub_to_mobi_main ⟨"b.epub", "b.mobi", "high", true⟩
        envDrmFail) =
      some "Converting b.epub to b.mobi\nQuality setting: high\nPreserve metadata: True\nError: Conversion failed: DRM Error" ∧
    pyContains (pyUpper "DRM Error") "DRM" = true ∧
    pyContains "Converting b.epub to b.mobi\nQuality setting: high\nPreserve metadata: True\nError: Conversion failed: DRM Error"
      "DRM-protected" = false := by
  refine ⟨?_, ?_, ?_⟩
  · decide
  · decide
  · decide

/-- C4 amended: the DRM advisory is implemented only by the
azw3-to-epub and universal tasks. For those two, whenever the process
exits non-zero with stderr containing "DRM" (case-insensitively, via
the uppercased message), the surfaced error contains both the raw
stderr and the advisory note. -/
theorem c4_amended_drm_note :
    (∀ (env : Env) (sd : String) (p : Azw3ToEpubInputs) (r : RunCompletion),
      env.fsBefore p.input_azw3 = true →
      env.run (azw3_to_epub_cmd p sd) = .completed r →
      r.success = false →
      pyContains (pyUpper r.stderr) "DRM" = true →
      ∃ m, (azw3_to_epub_main p sd env).result = .error m ∧
        pyContains m r.stderr = true ∧ pyContains m drmNote = true) ∧
    (∀ (env : Env) (p : UniversalInputs) (r : RunCompletion),
      env.fsBefore p.input_file = true →
      env.run (universal_cmd p) = .completed r →
      r.success = false →
      pyContains (pyUpper r.stderr) "DRM" = true →
      ∃ m, (universal_main p env).result = .error m ∧
        pyContains m r.stderr = true ∧ pyContains m drmNote = true) := by
  constructor
  · intro env sd p r h1 h2 h3 h4
    have hne : r.stderr ≠ "" := ne_empty_of_pyContains_upper (by decide) h4
    have hc : pyContains (pyUpper ("Conversion failed: " ++ r.stderr))
        "DRM" = true := pyContains_upper_append_left h4 _
    simp only [azw3_to_epub_main, h1, h2, h3, hne, hc, if_true,
      Bool.false_eq_true, if_false, Bool.true_or, eq_self_iff_true,
      ite_true, ite_false]
    exact ⟨_, rfl,
      pyContains_append_right (pyContains_suffix "Conversion failed: "
        r.stderr) drmNote,
      pyContains_suffix ("Conversion failed: " ++ r.stderr) drmNote⟩
  · intro env p r h1 h2 h3 h4
    have hne : r.stderr ≠ "" := ne_empty_of_pyContains_upper (by decide) h4
    have hc : pyContains (pyUpper ("Conversion failed: " ++ r.stderr))
        "DRM" = true := pyContains_upper_append_left h4 _
    simp only [universal_main, universalAnnotate, h1, h2, h3, hne, hc,
      if_true, Bool.false_eq_true, if_false, Bool.true_or,
      eq_self_iff_true, ite_true, ite_false]
    refine ⟨_, rfl, ?_, ?_⟩
    · exact pyContains_pyJoin_mem "\n"
        (pyContains_append_left (pyContains_append_right
          (pyContains_suffix "Conversion failed: " r.stderr) drmNote)
          "Error: ") _ (by simp)
    · exact pyContains_pyJoin_mem "\n"
        (pyContains_append_left
          (pyContains_suffix ("Conversion failed: " ++ r.stderr) drmNote)
          "Error: ") _ (by simp)

/-- C4 amended witness: concrete failing runs with stderr "DRM Error"
through both tasks that implement the advisory. -/
theorem c4_amended_drm_note_witness :
    (∃ m, (azw3_to_epub_main ⟨"w.azw3", none, none, none, none, none⟩
        "/sess" envDrmFail).result = .error m ∧
      pyContains m "DRM Error" = true ∧ pyContains m drmNote = true) ∧
    ∃ m, (universal_main ⟨"w.epub", "mobi", "w.mobi", "high", true,
        "kindle", none⟩ envDrmFail).result = .error m ∧
      pyContains m "DRM Error" = true ∧ pyContains m drmNote = true :=
  ⟨c4_amended_drm_note.1 envDrmFail "/sess"
    ⟨"w.azw3", none, none, none, none, none⟩ ⟨false, 1, "", "DRM Error"⟩
    rfl rfl rfl (by decide),
   c4_amended_drm_note.2 envDrmFail
    ⟨"w.epub", "mobi", "w.mobi", "high", true, "kindle", none⟩
    ⟨false, 1, "", "DRM Error"⟩ rfl rfl rfl (by decide)⟩

/-! ## C5 -/

/-- C5 counterexample: with stderr "DRM plugin not found" both the DRM
condition and the "not found" condition hold, yet the surfaced message
carries only the DRM note and not the tool-installation note, because
the classifier is an if/elif chain — refuting the claim that all
applicable notes are appended. -/
theorem c5_additive_notes_counterexample :
    resultErrorMsg (universal_main ⟨"in.epub", "mobi", "out.mobi", "high",
        true, "kindle", none⟩ envDrmNotFound) =
      some "Converting in.epub (EPUB) to out.mobi (MOBI)\nInput file size: 1.0 MB\nQuality setting: high\nTarget device: kindle\nPreserve metadata: True\nError: Conversion failed: DRM plugin not found\nNote: This file may be DRM-protected. DRM-protected files cannot be converted." ∧
    pyContains (pyLower "Conversion failed: DRM plugin not found")
      "not found" = true ∧
    pyContains "Converting in.epub (EPUB) to out.mobi (MOBI)\nInput file size: 1.0 MB\nQuality setting: high\nTarget device: kindle\nPreserve metadata: True\nError: Conversion failed: DRM plugin not found\nNote: This file may be DRM-protected. DRM-protected files cannot be converted."
      "Make sure Calibre is properly installed" = false := by
  refine ⟨?_, ?_, ?_⟩
  · decide
  · decide
  · decide

/-- C5 amended: the three annotations of the universal-task classifier
form an if/elif chain and are mutually exclusive: exactly the first
note whose condition holds is appended, in the priority order
DRM/encryption, then "not found", then same source and target format;
when several conditions hold only the highest-priority note appears. -/
theorem c5_amended_elif_chain (m i o : String) :
    ((pyContains (pyUpper m) "DRM" || pyContains (pyUpper m) "ENCRYPTION")
        = true →
      universalAnnotate m i o = m ++ drmNote) ∧
    ((pyContains (pyUpper m) "DRM" || pyContains (pyUpper m) "ENCRYPTION")
        = false →
      pyContains (pyLower m) "not found" = true →
      universalAnnotate m i o =
        m ++ "\nNote: Make sure Calibre is properly installed.") ∧
    ((pyContains (pyUpper m) "DRM" || pyContains (pyUpper m) "ENCRYPTION")
        = false →
      pyContains (pyLower m) "not found" = false →
      i = o →
      universalAnnotate m i o =
        m ++ "\nNote: Input and output formats are the same (" ++ i ++
          "). No conversion needed.") ∧
    ((pyContains (pyUpper m) "DRM" || pyContains (pyUpper m) "ENCRYPTION")
        = false →
      pyContains (pyLower m) "not found" = false →
      i ≠ o →
      universalAnnotate m i o = m) := by
  refine ⟨?_, ?_, ?_, ?_⟩
  · intro h1
    simp only [universalAnnotate, h1, if_true, eq_self_iff_true, ite_true]
  · intro h1 h2
    simp only [universalAnnotate, h1, h2, Bool.false_eq_true, if_false,
      if_true, eq_self_iff_true, ite_true, ite_false]
  · intro h1 h2 h3
    simp only [universalAnnotate, h1, h2, h3, Bool.false_eq_true,
      if_false, eq_self_iff_true, ite_true, ite_false]
  · intro h1 h2 h3
    simp only [universalAnnotate, h1, h2, Bool.false_eq_true,
      if_false, ite_false]
    rw [if_neg h3]

/-- C5 amended witness: on the message "DRM not found", which meets
both the DRM condition and the "not found" condition, only the DRM
note is appended. -/
theorem c5_amended_elif_chain_witness :
    universalAnnotate "DRM not found" "epub" "mobi" =
      "DRM not found" ++ drmNote :=
  (c5_amended_elif_chain "DRM not found" "epub" "mobi").1 (by decide)

/-! ## C6 -/

/-- C6: in the azw3-to-epub task, with no explicit destination the
derived output path is the session directory joined with the source
stem plus ".epub", and a successful conversion returns exactly that
path. -/
theorem c6_derived_output_path (env : Env) (sd : String)
    (p : Azw3ToEpubInputs) (r : RunCompletion)
    (hout : p.output_path = none)
    (h1 : env.fsBefore p.input_azw3 = true) :
    azw3_to_epub_outputFile p sd =
      pyOsPathJoin sd (pyPathStem p.input_azw3 ++ ".epub") ∧
    (env.run (azw3_to_epub_cmd p sd) = .completed r → r.success = true →
      env.fsAfter (azw3_to_epub_outputFile p sd) = true →
      (azw3_to_epub_main p sd env).result =
        .ok ⟨pyOsPathJoin sd (pyPathStem p.input_azw3 ++ ".epub")⟩) := by
  have hof : azw3_to_epub_outputFile p sd =
      pyOsPathJoin sd (pyPathStem p.input_azw3 ++ ".epub") := by
    simp [azw3_to_epub_outputFile, hout]
  refine ⟨hof, ?_⟩
  intro h2 h3 h4
  simp only [azw3_to_epub_main, h1, h2, h3, h4, if_true, eq_self_iff_true,
    ite_true]
  rw [hof]

/-- C6 witness: source "book.mobi" with no destination, targeting
EPUB, derives "/work/book.epub" under working directory "/work". -/
theorem c6_derived_output_path_witness :
    azw3_to_epub_outputFile ⟨"book.mobi", none, none, none, none, none⟩
        "/work" =
      pyOsPathJoin "/work" (pyPathStem "book.mobi" ++ ".epub") ∧
    (azw3_to_epub_main ⟨"book.mobi", none, none, none, none, none⟩ "/work"
        envAllOk).result =
      .ok ⟨pyOsPathJoin "/work" (pyPathStem "book.mobi" ++ ".epub")⟩ ∧
    pyOsPathJoin "/work" (pyPathStem "book.mobi" ++ ".epub") =
      "/work/book.epub" := by
  have H := c6_derived_output_path envAllOk "/work"
    ⟨"book.mobi", none, none, none, none, none⟩ ⟨true, 0, "", ""⟩ rfl rfl
  exact ⟨H.1, H.2 rfl rfl rfl, by decide⟩

/-! ## C7 -/

/-- C7: each quality resolver returns the exact ordered flag list of
its static table for the four recognized tiers, and falls back to the
designated default entry for any unrecognized tier value without
failing: "medium" for the epub-to-mobi and mobi-to-epub tasks, "high"
for the azw3-to-epub, epub-to-azw3 and universal tasks. -/
theorem c7_quality_lookup :
    (epub_to_mobi_quality "low" = ["--output-profile", "kindle"] ∧
     epub_to_mobi_quality "medium" =
       ["--output-profile", "kindle", "--heuristics"] ∧
     epub_to_mobi_quality "high" =
       ["--output-profile", "kindle", "--heuristics", "--enable-heuristics"] ∧
     epub_to_mobi_quality "best" =
       ["--output-profile", "kindle", "--heuristics", "--enable-heuristics",
        "--smarten-punctuation"] ∧
     ∀ q, q ≠ "low" → q ≠ "medium" → q ≠ "high" → q ≠ "best" →
       epub_to_mobi_quality q =
         ["--output-profile", "kindle", "--heuristics"]) ∧
    (mobi_to_epub_quality "low" = ["--output-profile", "generic_eink"] ∧
     mobi_to_epub_quality "medium" =
       ["--output-profile", "generic_eink", "--pretty-print"] ∧
     mobi_to_epub_quality "high" =
       ["--output-profile", "generic_eink", "--pretty-print",
        "--linearize-tables"] ∧
     mobi_to_epub_quality "best" =
       ["--output-profile", "generic_eink", "--pretty-print",
        "--linearize-tables", "--unsmarten-punctuation"] ∧
     ∀ q, q ≠ "low" → q ≠ "medium" → q ≠ "high" → q ≠ "best" →
       mobi_to_epub_quality q =
         ["--output-profile", "generic_eink", "--pretty-print"]) ∧
    (azw3_to_epub_quality "low" = ["--output-profile", "generic_eink"] ∧
     azw3_to_epub_quality "medium" =
       ["--output-profile", "generic_eink", "--pretty-print"] ∧
     azw3_to_epub_quality "high" =
       ["--output-profile", "generic_eink", "--pretty-print",
        "--linearize-tables"] ∧
     azw3_to_epub_quality "best" =
       ["--output-profile", "generic_eink", "--pretty-print",
        "--linearize-tables", "--unsmarten-punctuation", "--asciiize"] ∧
     ∀ q, q ≠ "low" → q ≠ "medium" → q ≠ "high" → q ≠ "best" →
       azw3_to_epub_quality q =
         ["--output-profile", "generic_eink", "--pretty-print",
          "--linearize-tables"]) ∧
    (epub_to_azw3_quality "low" = ["--mobi-file-type", "new"] ∧
     epub_to_azw3_quality "medium" =
       ["--mobi-file-type", "new", "--mobi-toc"] ∧
     epub_to_azw3_quality "high" =
       ["--mobi-file-type", "new", "--mobi-toc", "--prefer-metadata-cover"] ∧
     epub_to_azw3_quality "best" =
       ["--mobi-file-type", "new", "--mobi-toc", "--prefer-metadata-cover",
        "--share-not-sync", "--personal-doc"] ∧
     ∀ q, q ≠ "low" → q ≠ "medium" → q ≠ "high" → q ≠ "best" →
       epub_to_azw3_quality q =
         ["--mobi-file-type", "new", "--mobi-toc",
          "--prefer-metadata-cover"]) ∧
    (universal_quality "low" = [] ∧
     universal_quality "medium" = ["--pretty-print"] ∧
     universal_quality "high" = ["--pretty-print", "--linearize-tables"] ∧
     universal_quality "best" =
       ["--pretty-print", "--linearize-tables", "--enable-heuristics",
        "--smarten-punctuation"] ∧
     ∀ q, q ≠ "low" → q ≠ "medium" → q ≠ "high" → q ≠ "best" →
       universal_quality q = ["--pretty-print", "--linearize-tables"]) := by
  refine ⟨⟨by decide, by decide, by decide, by decide, ?_⟩,
    ⟨by decide, by decide, by decide, by decide, ?_⟩,
    ⟨by decide, by decide, by decide, by decide, ?_⟩,
    ⟨by decide, by decide, by decide, by decide, ?_⟩,
    ⟨by decide, by decide, by decide, by decide, ?_⟩⟩
  · intro q h1 h2 h3 h4
    simp [epub_to_mobi_quality, epub_to_mobi_quality_settings, dictGet,
      Ne.symm h1, Ne.symm h2, Ne.symm h3, Ne.symm h4]
  · intro q h1 h2 h3 h4
    simp [mobi_to_epub_quality, mobi_to_epub_quality_settings, dictGet,
      Ne.symm h1, Ne.symm h2, Ne.symm h3, Ne.symm h4]
  · intro q h1 h2 h3 h4
    simp [azw3_to_epub_quality, azw3_to_epub_quality_settings, dictGet,
      Ne.symm h1, Ne.symm h2, Ne.symm h3, Ne.symm h4]
  · intro q h1 h2 h3 h4
    simp [epub_to_azw3_quality, epub_to_azw3_quality_settings, dictGet,
      Ne.symm h1, Ne.symm h2, Ne.symm h3, Ne.symm h4]
  · intro q h1 h2 h3 h4
    simp [universal_quality, universal_quality_settings, dictGet,
      Ne.symm h1, Ne.symm h2, Ne.symm h3, Ne.symm h4]

/-- C7 witness: the unrecognized tier "ultra" resolves to the
designated default flag list of each task. -/
theorem c7_quality_lookup_witness :
    epub_to_mobi_quality "ultra" =
      ["--output-profile", "kindle", "--heuristics"] ∧
    mobi_to_epub_quality "ultra" =
      ["--output-profile", "generic_eink", "--pretty-print"] ∧
    azw3_to_epub_quality "ultra" =
      ["--output-profile", "generic_eink", "--pretty-print",
       "--linearize-tables"] ∧
    epub_to_azw3_quality "ultra" =
      ["--mobi-file-type", "new", "--mobi-toc", "--prefer-metadata-cover"] ∧
    universal_quality "ultra" = ["--pretty-print", "--linearize-tables"] :=
  ⟨c7_quality_lookup.1.2.2.2.2 "ultra" (by decide) (by decide) (by decide)
    (by decide),
   c7_quality_lookup.2.1.2.2.2.2 "ultra" (by decide) (by decide) (by decide)
    (by decide),
   c7_quality_lookup.2.2.1.2.2.2.2 "ultra" (by decide) (by decide)
    (by decide) (by decide),
   c7_quality_lookup.2.2.2.1.2.2.2.2 "ultra" (by decide) (by decide)
    (by decide) (by decide),
   c7_quality_lookup.2.2.2.2.2.2.2.2 "ultra" (by decide) (by decide)
    (by decide) (by decide)⟩

/-! ## C8 -/

/-- The token order asserted by the claim for the universal task,
written from the words of the spec (metadata flags before
format-specific flags and before raw passthrough flags), for
comparison with universal_cmd, which is translated from the source. -/
def universal_cmd_claimed (p : UniversalInputs) : List String :=
  ["ebook-convert", p.input_file, fixOutputPath p.output_path p.output_format]
    ++ ["--output-profile",
        dictGetStr universal_device_profiles p.target_device "generic_eink"]
    ++ universal_quality p.quality
    ++ (if p.preserve_metadata then ["--prefer-metadata-cover"] else [])
    ++ universal_format_flags p.output_format
    ++ universal_extra_flags (universalCustomOptions p)

/-- C8 counterexample: for an EPUB-targeting request of the universal
task with preserve_metadata set, the assembled command line differs
from the order the claim asserts: the metadata flag
"--prefer-metadata-cover" comes after the format-specific flags, as
the explicit token list shows. -/
theorem c8_cmd_order_counterexample :
    universal_cmd ⟨"in.epub", "epub", "out.epub", "high", true, "kindle",
        none⟩ ≠
      universal_cmd_claimed ⟨"in.epub", "epub", "out.epub", "high", true,
        "kindle", none⟩ ∧
    universal_cmd ⟨"in.epub", "epub", "out.epub", "high", true, "kindle",
        none⟩ =
      ["ebook-convert", "in.epub", "out.epub", "--output-profile", "kindle",
       "--pretty-print", "--linearize-tables", "--remove-paragraph-spacing",
       "--insert-blank-line", "--prefer-metadata-cover"] := by
  constructor
  · decide
  · decide

/-- C8 amended: in the four dedicated tasks the metadata flag precedes
the format-specific flags, but in the universal task the
format-specific flags precede the metadata flag; each task assembles
its command line as the concatenation below, in this order. -/
theorem c8_amended_cmd_order :
    (∀ p : UniversalInputs, universal_cmd p =
      ["ebook-convert", p.input_file,
       fixOutputPath p.output_path p.output_format]
        ++ ["--output-profile",
            dictGetStr universal_device_profiles p.target_device
              "generic_eink"]
        ++ universal_quality p.quality
        ++ universal_format_flags p.output_format
        ++ (if p.preserve_metadata then ["--prefer-metadata-cover"] else [])
        ++ universal_extra_flags (universalCustomOptions p)) ∧
    (∀ p : EpubToAzw3Inputs, epub_to_azw3_cmd p =
      ["ebook-convert", p.input_epub, p.output_path]
        ++ ["--output-profile",
            dictGetStr epub_to_azw3_device_profiles p.kindle_device
              "kindle_paperwhite"]
        ++ epub_to_azw3_quality p.quality
        ++ (if p.preserve_metadata then ["--preserve-cover-aspect-ratio"]
            else [])
        ++ ["--enable-heuristics", "--mobi-keep-original-images"]) ∧
    (∀ p : EpubToMobiInputs, epub_to_mobi_cmd p =
      ["ebook-convert", p.input_epub, p.output_path]
        ++ epub_to_mobi_quality p.quality
        ++ (if p.preserve_metadata then ["--preserve-cover-aspect-ratio"]
            else [])) ∧
    (∀ p : MobiToEpubInputs, mobi_to_epub_cmd p =
      ["ebook-convert", p.input_mobi, p.output_path]
        ++ mobi_to_epub_quality p.quality
        ++ (if p.preserve_metadata then ["--preserve-cover-aspect-ratio"]
            else [])
        ++ (if p.fix_formatting then
              ["--fix-indents", "--remove-paragraph-spacing",
               "--remove-paragraph-spacing-indent-size", "1.5",
               "--insert-blank-line"]
            else [])) ∧
    (∀ (p : Azw3ToEpubInputs) (sd : String), azw3_to_epub_cmd p sd =
      ["ebook-convert", p.input_azw3, azw3_to_epub_outputFile p sd]
        ++ azw3_to_epub_quality (pyOrStr p.quality "high")
        ++ (if p.preserve_metadata.getD true then
              ["--preserve-cover-aspect-ratio"] else [])
        ++ (if p.fix_drm_protected.getD false then ["--ignore-drm-errors"]
            else [])
        ++ (if p.clean_formatting.getD true then
              ["--fix-indents", "--remove-paragraph-spacing",
               "--remove-paragraph-spacing-indent-size", "1.5",
               "--insert-blank-line", "--html-unwrap-factor", "0.4"]
            else [])) :=
  ⟨fun _ => rfl, fun _ => rfl, fun _ => rfl, fun _ => rfl, fun _ _ => rfl⟩

/-! ## C9 -/

/-- C9: in every static quality table, each tier flag list is a prefix
of the next tier list, so each higher tier includes every flag of all
lower tiers, for all five tasks. -/
theorem c9_quality_tables_monotone :
    (epub_to_mobi_quality "low" <+: epub_to_mobi_quality "medium" ∧
     epub_to_mobi_quality "medium" <+: epub_to_mobi_quality "high" ∧
     epub_to_mobi_quality "high" <+: epub_to_mobi_quality "best") ∧
    (mobi_to_epub_quality "low" <+: mobi_to_epub_quality "medium" ∧
     mobi_to_epub_quality "medium" <+: mobi_to_epub_quality "high" ∧
     mobi_to_epub_quality "high" <+: mobi_to_epub_quality "best") ∧
    (azw3_to_epub_quality "low" <+: azw3_to_epub_quality "medium" ∧
     azw3_to_epub_quality "medium" <+: azw3_to_epub_quality "high" ∧
     azw3_to_epub_quality "high" <+: azw3_to_epub_quality "best") ∧
    (epub_to_azw3_quality "low" <+: epub_to_azw3_quality "medium" ∧
     epub_to_azw3_quality "medium" <+: epub_to_azw3_quality "high" ∧
     epub_to_azw3_quality "high" <+: epub_to_azw3_quality "best") ∧
    (universal_quality "low" <+: universal_quality "medium" ∧
     universal_quality "medium" <+: universal_quality "high" ∧
     universal_quality "high" <+: universal_quality "best") := by
  decide

/-! ## C10 -/

/-- C10: in the universal task, a custom_options value that is None,
the empty string, or whitespace-only contributes no tokens: the
assembled command line equals the one for the same request with the
custom_options key absent. -/
theorem c10_blank_custom_options_identity (p : UniversalInputs)
    (v : Option (Option String))
    (h : v = some none ∨ ∃ s, v = some (some s) ∧ pyStrip s = "") :
    universal_cmd { p with custom_options := v } =
      universal_cmd { p with custom_options := none } := by
  rcases h with h | ⟨s, h, hs⟩
  · subst h
    simp [universal_cmd, universalCustomOptions, universal_extra_flags]
  · subst h
    simp [universal_cmd, universalCustomOptions, universal_extra_flags, hs]

/-- C10 witness: a whitespace-only custom_options value yields the
same command line as an absent one. -/
theorem c10_blank_custom_options_identity_witness :
    universal_cmd ⟨"in.epub", "pdf", "out.pdf", "high", true, "generic",
        some (some "   ")⟩ =
      universal_cmd ⟨"in.epub", "pdf", "out.pdf", "high", true, "generic",
        none⟩ :=
  c10_blank_custom_options_identity
    ⟨"in.epub", "pdf", "out.pdf", "high", true, "generic", none⟩
    (some (some "   ")) (Or.inr ⟨"   ", rfl, by decide⟩)
